import Mathlib

/-!
Verification of the Themis run-orchestration and caching layer.

The definitions below are a shallow embedding of the Python sources
(themis_lib/analyzer.py, themis_lib/commands.py, themis_lib/defense.py,
themis_lib/utils.py).  External collaborators (the filesystem, the PDF
text extractor, the Ollama HTTP client and the builtin hash) are modelled
as explicit function parameters, so every operation of the core is a pure,
executable Lean function.
-/

namespace Themis

set_option maxRecDepth 16384

/-- A PDF path as seen by the analyzer: the case directory and the file
name inside it.  `pathStr` renders it the way Python renders a
`pathlib.Path` inside an f-string. -/
structure PdfPath where
  dir : String
  name : String
deriving DecidableEq

def pathStr (p : PdfPath) : String := p.dir ++ "/" ++ p.name

/-- The result shape built by `CaseAnalyzer.analyze_document`: a filename
together with the ordered question-to-answer mapping (a Python dict in
insertion order, modelled as an association list). -/
structure DocumentAnalysis where
  filename : String
  analysis : List (String × String)
deriving DecidableEq

/-- Assignment into a Python dict: overwrite the value in place when the
key exists, otherwise append the binding at the end. -/
def updateAssoc {α : Type} : List (String × α) → String → α → List (String × α)
  | [], k, v => [(k, v)]
  | (k2, v2) :: rest, k, v =>
    if k2 = k then (k, v) :: rest else (k2, v2) :: updateAssoc rest k v

/-- Lookup in a Python dict modelled as an association list. -/
def findVal {α : Type} : List (String × α) → String → Option α
  | [], _ => none
  | (k2, v2) :: rest, k => if k2 = k then some v2 else findVal rest k

/-- External collaborators of the analyzer: the text extractor
(`extract_text_from_pdf`, which returns the empty string on failure), the
Ollama client (`none` models any request failure or unexpected response
shape) and the Python builtin `hash` on strings. -/
structure AnalyzerEnv where
  extract : String → String
  llm : String → Option String
  pyHash : String → Int

/-- Counters for the observable side effects of one analyzer call:
invocations of the text extractor, of the LLM client, and of
`save_cache` (the cache-file rewrite). -/
structure Effects where
  extractCalls : Nat
  llmCalls : Nat
  cacheSaves : Nat
deriving DecidableEq

def Effects.add (a b : Effects) : Effects :=
  ⟨a.extractCalls + b.extractCalls, a.llmCalls + b.llmCalls, a.cacheSaves + b.cacheSaves⟩

/-- Python `str` applied to a list of strings, as used in
`hash(str(questions))` at analyzer.py line 80.  The apostrophe quote
character is written with an escape. -/
def pyStrOfList (qs : List String) : String :=
  "[" ++ String.intercalate ", " (qs.map (fun q => "\x27" ++ q ++ "\x27")) ++ "]"

/-- The cache key of analyzer.py line 80:
a formatted string of the document path and the hash of the serialized
question list.  Note that the document content is not an input. -/
def file_hash (env : AnalyzerEnv) (pdf_path : PdfPath) (questions : List String) : String :=
  pathStr pdf_path ++ "_" ++ toString (env.pyHash (pyStrOfList questions))

/-- Python string slicing of the form text[:n], which takes the first n
characters; evaluated on the underlying character list. -/
def pyTake (n : Nat) (s : String) : String := ⟨s.data.take n⟩

/-- The per-question prompt built at analyzer.py lines 101-107, embedding
the question and the first 4000 characters of the extracted text. -/
def mkPrompt (question text : String) : String :=
  "\n            Based on the following legal document, please answer this question:\n            "
    ++ question
    ++ "\n            \n            Document text:\n            "
    ++ pyTake 4000 text
    ++ "  # Using first 4000 chars to avoid token limits\n            "

/-- The utils.py `query_ollama` contract: the response string on success,
the empty string on any failure (non-200, missing response field, or a
raised exception). -/
def query_ollama (env : AnalyzerEnv) (prompt : String) : String :=
  match env.llm prompt with
  | some r => r
  | none => ""

/-- The analysis dict built by the question loop of analyzer.py lines
98-110 (and by the dict comprehension of line 91 when `answers` is
constantly empty). -/
def buildAnalysis (answers : String → String) (questions : List String) :
    List (String × String) :=
  questions.foldl (fun acc q => updateAssoc acc q (answers q)) []

/-- Result of one `analyze_document` call: the returned analysis, the
in-memory cache afterwards, and the observable side effects. -/
structure AnalyzeOut where
  result : DocumentAnalysis
  cache : List (String × DocumentAnalysis)
  effects : Effects

/-- Shallow embedding of `CaseAnalyzer.analyze_document` (analyzer.py
lines 69-119) with the question set already resolved.  On a cache hit the
cached value is returned untouched; on a miss with empty extracted text a
blank analysis is returned without touching the cache; otherwise every
question is asked in order and the result is inserted into the cache and
the cache file rewritten. -/
def analyze_document (env : AnalyzerEnv) (cache : List (String × DocumentAnalysis))
    (pdf_path : PdfPath) (questions : List String) : AnalyzeOut :=
  let fh := file_hash env pdf_path questions
  match findVal cache fh with
  | some cached => ⟨cached, cache, ⟨0, 0, 0⟩⟩
  | none =>
    let text := env.extract (pathStr pdf_path)
    if text = "" then
      ⟨⟨pdf_path.name, buildAnalysis (fun _ => "") questions⟩, cache, ⟨1, 0, 0⟩⟩
    else
      let results : DocumentAnalysis :=
        ⟨pdf_path.name, buildAnalysis (fun q => query_ollama env (mkPrompt q text)) questions⟩
      ⟨results, updateAssoc cache fh results, ⟨1, questions.length, 1⟩⟩

/-- Result of `analyze_all_documents`: the ordered result sequence, the
final cache, and the accumulated effects. -/
structure AllOut where
  results : List DocumentAnalysis
  cache : List (String × DocumentAnalysis)
  effects : Effects

/-- Shallow embedding of `CaseAnalyzer.analyze_all_documents` (analyzer.py
lines 121-147): the sorted PDF listing is taken as input and each document
is analyzed in order, threading the cache. -/
def analyze_all_documents (env : AnalyzerEnv) (cache : List (String × DocumentAnalysis))
    (docs : List PdfPath) (questions : List String) : AllOut :=
  docs.foldl
    (fun acc d =>
      let out := analyze_document env acc.cache d questions
      ⟨acc.results ++ [out.result], out.cache, Effects.add acc.effects out.effects⟩)
    ⟨[], cache, ⟨0, 0, 0⟩⟩

/-- File name of the phase-1 JSON output for a sanitized model name
(commands.py lines 80 and 129-130). -/
def analysisJsonName (s : String) : String := "document_analysis_" ++ s ++ ".json"

/-- File name of the phase-1 markdown summary (commands.py line 85). -/
def analysisMdName (s : String) : String := "document_analysis_" ++ s ++ ".md"

/-- Run-directory resolution of `analyze_command` (commands.py lines
38-45): the provided run directory when the full-process command passed
one, otherwise a fresh date-and-model directory inside the case
directory. -/
def analyzeRunDir (run_dir_arg : Option String) (dir date_str s : String) : String :=
  match run_dir_arg with
  | some rd => rd
  | none => dir ++ "/" ++ date_str ++ "_" ++ s

/-- Shallow embedding of `analyze_command` (commands.py lines 24-97)
after argument resolution: the connection-check outcome, the run
directory and the sorted PDF listing are inputs.  The returned pair is
the boolean command result together with the list of analysis output
files the command writes (the JSON dump of line 81 and the markdown
summary of line 88). -/
def analyze_command (conn : Bool) (env : AnalyzerEnv)
    (cache : List (String × DocumentAnalysis)) (run_dir s : String)
    (docs : List PdfPath) (questions : List String) : Bool × List String :=
  if !conn then (false, [])
  else
    let res := analyze_all_documents env cache docs questions
    if res.results.isEmpty then (false, [])
    else (true, [run_dir ++ "/" ++ analysisJsonName s, run_dir ++ "/" ++ analysisMdName s])

/-- The argument fields of `defend_command` that drive analysis-file
resolution: the case directory, the optional explicit analysis path, and
the run directory attribute that is present exactly when the command is
invoked from `full_process_command`. -/
structure DefendArgs where
  case_dir : String
  analysis : Option String
  run_dir : Option String

/-- Run-directory resolution of `defend_command` (commands.py lines
113-120). -/
def resolveRunDir (a : DefendArgs) (date_str s : String) : String :=
  match a.run_dir with
  | some rd => rd
  | none => a.case_dir ++ "/" ++ date_str ++ "_" ++ s

/-- Analysis-file resolution of `defend_command` (commands.py lines
122-137): an explicit path wins unconditionally; otherwise the run
directory is checked, then the case directory, and if neither file
exists a FileNotFoundError is raised whose message names both searched
directories. -/
def resolveAnalysisFile (fileExists : String → Bool) (a : DefendArgs)
    (run_dir s : String) : Except String String :=
  match a.analysis with
  | some p => Except.ok p
  | none =>
    let run_dir_analysis := run_dir ++ "/" ++ analysisJsonName s
    let case_dir_analysis := a.case_dir ++ "/" ++ analysisJsonName s
    if fileExists run_dir_analysis then Except.ok run_dir_analysis
    else if fileExists case_dir_analysis then Except.ok case_dir_analysis
    else Except.error ("Analysis file not found in " ++ run_dir ++ " or " ++ a.case_dir)

/-- Restatement of the section 4.1 search contract in the words of the
spec: the candidate locations are tried in order and the first existing
one wins. -/
def specFirstExisting (fileExists : String → Bool) : List String → Option String
  | [] => none
  | c :: rest => if fileExists c then some c else specFirstExisting fileExists rest

/-- The parameter names of `DefenseGenerator.__init__` as written at
defense.py line 17. -/
def defenseGeneratorInitParams : List String :=
  ["self", "case_dir", "model", "analysis_file", "api_url"]

/-- The keyword-argument names of the `DefenseGenerator` construction at
commands.py lines 140-143 (the case directory is passed positionally). -/
def defendDefenseGeneratorCallKeywords : List String :=
  ["model", "analysis_file", "api_url", "run_dir"]

/-- A Python call binds successfully only when every keyword argument
names a parameter of the callee; otherwise it raises a TypeError before
the constructor body runs. -/
def defendDefenseGeneratorCallAccepted : Bool :=
  defendDefenseGeneratorCallKeywords.all (fun k => defenseGeneratorInitParams.contains k)

/-- The two distinct failure kinds of `DefenseGenerator.load_analysis`
(defense.py lines 45-67): a missing file and an unparseable file. -/
inductive LoadError where
  | fileNotFound : String → LoadError
  | jsonDecodeError : String → LoadError
deriving DecidableEq

/-- Shallow embedding of `DefenseGenerator.load_analysis` (defense.py
lines 45-67).  The filesystem read and the JSON parse are external
collaborators: `readFile` returns `none` when the file is absent
(FileNotFoundError) and `parseJson` returns `none` when the contents do
not parse (json.JSONDecodeError, re-raised unchanged). -/
def load_analysis (readFile : String → Option String)
    (parseJson : String → Option (List DocumentAnalysis))
    (analysis_file : String) : Except LoadError (List DocumentAnalysis) :=
  match readFile analysis_file with
  | none => Except.error (LoadError.fileNotFound ("Analysis file not found: " ++ analysis_file))
  | some content =>
    match parseJson content with
    | none =>
      Except.error (LoadError.jsonDecodeError ("Invalid JSON in analysis file: " ++ analysis_file))
    | some data => Except.ok data

/-- The command-boundary handling of `defend_command` (commands.py lines
155-161): a FileNotFoundError yields a failure result with a remediation
message telling the user to run the analysis first; any other exception
yields a failure with a generic defense-generation message.  Quote
characters of the original messages are elided. -/
def defendErrorMessage (model : String) : LoadError → Bool × String
  | LoadError.fileNotFound m =>
    (false, "Error: " ++ m ++ "\nPlease run themis analyze with model " ++ model
      ++ " first to generate the analysis file.")
  | LoadError.jsonDecodeError m =>
    (false, "Error during defense generation: " ++ m)

/-- Result of `generate_all_materials`: the sequence of (path, content)
file writes it performs and the name-to-path mapping it returns. -/
structure GenMaterialsOut where
  writes : List (String × String)
  returned : List (String × String)

/-- Shallow embedding of `DefenseGenerator.generate_all_materials`
(defense.py lines 132-188).  The three generated material bodies are the
strings returned by the three LLM calls and are taken as inputs; the
function writes each material, prefixed with its level-1 heading, both
under the defense_materials subdirectory of the output directory and
under a Defense-date-model directory created in the case directory, and
returns the case-directory paths. -/
def generate_all_materials (output_dir case_dir model date_str : String)
    (defense_strategy action_items timeline : String) : GenMaterialsOut :=
  let defense_output_dir := output_dir ++ "/defense_materials"
  let case_defense_dir := case_dir ++ "/Defense-" ++ date_str ++ "-" ++ model
  let write_to_both := fun (filename content : String) =>
    [(defense_output_dir ++ "/" ++ filename, content),
     (case_defense_dir ++ "/" ++ filename, content)]
  { writes :=
      write_to_both "defense_strategy.md" ("# Defense Strategy\n\n" ++ defense_strategy)
        ++ write_to_both "action_items.md" ("# Action Items\n\n" ++ action_items)
        ++ write_to_both "case_timeline.md" ("# Case Timeline\n\n" ++ timeline),
    returned :=
      [("defense_strategy", case_defense_dir ++ "/defense_strategy.md"),
       ("action_items", case_defense_dir ++ "/action_items.md"),
       ("case_timeline", case_defense_dir ++ "/case_timeline.md")] }

/-- Concrete environment for the cache-idempotence counterexample: a
document whose text extraction yields nothing. -/
def c2Env : AnalyzerEnv :=
  ⟨fun _ => "", fun _ => some "an answer", fun s => (s.length : Int)⟩

def c2Doc : PdfPath := ⟨"case", "scan.pdf"⟩

def c2Questions : List String := ["What are the charges"]

/-- Concrete environments for the fingerprint counterexample: the same
document path with two different contents, identical hash function. -/
def c3EnvOld : AnalyzerEnv :=
  ⟨fun _ => "OLD TEXT", fun _ => some "old answer", fun s => (s.length : Int)⟩

def c3EnvNew : AnalyzerEnv :=
  ⟨fun _ => "NEW TEXT", fun _ => some "new answer", fun s => (s.length : Int)⟩

def c3Doc : PdfPath := ⟨"case", "charges.pdf"⟩

def c3Questions : List String := ["What are the central claims"]

/-- Concrete environment for witnesses: non-empty extraction, and an LLM
that fails on exactly the prompt built for the second question. -/
def wEnv : AnalyzerEnv :=
  ⟨fun _ => "SOME TEXT",
   fun p => if p = mkPrompt "Q2" "SOME TEXT" then none else some "ANSWER",
   fun s => (s.length : Int)⟩

def wDoc : PdfPath := ⟨"case", "brief.pdf"⟩

def wQuestions : List String := ["Q1", "Q2", "Q3"]

def wQuestions2 : List String := ["Q1", "Q2", "Q3", "Q4"]

/-- Concrete filesystem for the load-analysis witness: one present but
malformed file, everything else absent. -/
def c7ReadFile : String → Option String :=
  fun p => if p = "case/document_analysis_mistral.json" then some "NOT JSON" else none

def c7ParseJson : String → Option (List DocumentAnalysis) := fun _ => none

theorem findVal_updateAssoc_self {α : Type} (l : List (String × α)) (k : String) (v : α) :
    findVal (updateAssoc l k v) k = some v := by
  induction l with
  | nil => simp [updateAssoc, findVal]
  | cons hd tl ih =>
    obtain ⟨k2, v2⟩ := hd
    by_cases h : k2 = k
    · simp [updateAssoc, h, findVal]
    · simp [updateAssoc, h, findVal, ih]

theorem findVal_updateAssoc_ne {α : Type} (l : List (String × α)) (k q : String) (v : α)
    (h : q ≠ k) : findVal (updateAssoc l k v) q = findVal l q := by
  have hk : k ≠ q := Ne.symm h
  induction l with
  | nil => simp [updateAssoc, findVal, hk]
  | cons hd tl ih =>
    obtain ⟨k2, v2⟩ := hd
    by_cases h2 : k2 = k
    · subst h2
      simp [updateAssoc, findVal, hk]
    · simp [updateAssoc, h2, findVal, ih]

theorem findVal_foldl_of_not_mem {f : String → String} {qs : List String} {q : String}
    (h : q ∉ qs) (acc : List (String × String)) :
    findVal (qs.foldl (fun a x => updateAssoc a x (f x)) acc) q = findVal acc q := by
  induction qs generalizing acc with
  | nil => rfl
  | cons x rest ih =>
    have hx : q ≠ x := fun e => h (e ▸ List.mem_cons_self x rest)
    have hr : q ∉ rest := fun hm => h (List.mem_cons_of_mem _ hm)
    simp only [List.foldl_cons]
    rw [ih hr, findVal_updateAssoc_ne _ _ _ _ hx]

theorem findVal_foldl_of_mem {f : String → String} {qs : List String} {q : String}
    (h : q ∈ qs) (acc : List (String × String)) :
    findVal (qs.foldl (fun a x => updateAssoc a x (f x)) acc) q = some (f q) := by
  induction qs generalizing acc with
  | nil => cases h
  | cons x rest ih =>
    simp only [List.foldl_cons]
    by_cases hr : q ∈ rest
    · exact ih hr _
    · have hqx : q = x := by
        rcases List.mem_cons.mp h with h1 | h2
        · exact h1
        · exact absurd h2 hr
      subst hqx
      rw [findVal_foldl_of_not_mem hr, findVal_updateAssoc_self]

theorem findVal_buildAnalysis {f : String → String} {qs : List String} {q : String}
    (h : q ∈ qs) : findVal (buildAnalysis f qs) q = some (f q) :=
  findVal_foldl_of_mem h []

theorem analyze_all_results_length_aux (env : AnalyzerEnv) (docs : List PdfPath)
    (questions : List String) (acc : AllOut) :
    (docs.foldl
      (fun acc d =>
        let out := analyze_document env acc.cache d questions
        (⟨acc.results ++ [out.result], out.cache, Effects.add acc.effects out.effects⟩ : AllOut))
      acc).results.length = acc.results.length + docs.length := by
  induction docs generalizing acc with
  | nil => simp
  | cons d rest ih =>
    simp only [List.foldl_cons]
    rw [ih]
    simp only [List.length_append, List.length_cons, List.length_nil]
    omega

theorem analyze_all_results_length (env : AnalyzerEnv)
    (cache : List (String × DocumentAnalysis)) (docs : List PdfPath)
    (questions : List String) :
    (analyze_all_documents env cache docs questions).results.length = docs.length := by
  unfold analyze_all_documents
  rw [analyze_all_results_length_aux]
  simp

theorem string_append_left_cancel {a b c : String} (h : a ++ b = a ++ c) : b = c := by
  apply String.ext
  have hd := congrArg String.data h
  simp only [String.data_append] at hd
  exact List.append_cancel_left hd

theorem analyze_document_hit (env : AnalyzerEnv) (cache : List (String × DocumentAnalysis))
    (d : PdfPath) (qs : List String) (r : DocumentAnalysis)
    (h : findVal cache (file_hash env d qs) = some r) :
    analyze_document env cache d qs = ⟨r, cache, ⟨0, 0, 0⟩⟩ := by
  simp [analyze_document, h]

theorem analyze_document_miss_empty (env : AnalyzerEnv)
    (cache : List (String × DocumentAnalysis)) (d : PdfPath) (qs : List String)
    (h : findVal cache (file_hash env d qs) = none)
    (hx : env.extract (pathStr d) = "") :
    analyze_document env cache d qs
      = ⟨⟨d.name, buildAnalysis (fun _ => "") qs⟩, cache, ⟨1, 0, 0⟩⟩ := by
  simp [analyze_document, h, hx]

theorem analyze_document_miss_text (env : AnalyzerEnv)
    (cache : List (String × DocumentAnalysis)) (d : PdfPath) (qs : List String)
    (h : findVal cache (file_hash env d qs) = none)
    (hx : env.extract (pathStr d) ≠ "") :
    analyze_document env cache d qs
      = ⟨⟨d.name,
          buildAnalysis (fun q => query_ollama env (mkPrompt q (env.extract (pathStr d)))) qs⟩,
         updateAssoc cache (file_hash env d qs)
           ⟨d.name,
            buildAnalysis (fun q => query_ollama env (mkPrompt q (env.extract (pathStr d)))) qs⟩,
         ⟨1, qs.length, 1⟩⟩ := by
  simp [analyze_document, h, hx]

/-- Claim C1.  For a combined run against case directory /case with model
mistral on date 20251012, phase 1 and phase 2 both resolve to the run
directory /case/20251012_mistral, and the phase-2 analysis-file search
finds the phase-1 output at the deterministic location without being told
the path.  However, the DefenseGenerator construction performed by
defend_command passes a run_dir keyword argument that the constructor
signature of defense.py does not accept, so the call raises a TypeError
and the loading step is never reached: the final conjunct records that
the keyword set of the call is not contained in the parameter list of the
constructor. -/
theorem C1_run_dir_agreement_and_constructor_type_error :
    analyzeRunDir (some "/case/20251012_mistral") "/case" "20251012" "mistral"
      = "/case/20251012_mistral" ∧
    resolveRunDir ⟨"/case", none, some "/case/20251012_mistral"⟩ "20251012" "mistral"
      = "/case/20251012_mistral" ∧
    resolveAnalysisFile
        (fun p => p == "/case/20251012_mistral/document_analysis_mistral.json")
        ⟨"/case", none, some "/case/20251012_mistral"⟩ "/case/20251012_mistral" "mistral"
      = Except.ok "/case/20251012_mistral/document_analysis_mistral.json" ∧
    defendDefenseGeneratorCallAccepted = false := by
  refine ⟨rfl, rfl, rfl, by decide⟩

/-- Claim C6.  When defend_command is invoked with no explicit analysis
path, the analysis file is resolved exactly as the first existing
candidate among the run-directory location and the case-directory
location, in that order, and when neither exists the command fails with
an error naming both searched directories; when an explicit path is
given it is chosen unconditionally. -/
theorem C6_standalone_analysis_search (fileExists : String → Bool)
    (caseDir run_dir s p : String) (rdArg : Option String) :
    (resolveAnalysisFile fileExists ⟨caseDir, none, rdArg⟩ run_dir s =
      match specFirstExisting fileExists
          [run_dir ++ "/" ++ analysisJsonName s, caseDir ++ "/" ++ analysisJsonName s] with
      | some q => Except.ok q
      | none =>
        Except.error ("Analysis file not found in " ++ run_dir ++ " or " ++ caseDir)) ∧
    resolveAnalysisFile fileExists ⟨caseDir, some p, rdArg⟩ run_dir s = Except.ok p := by
  constructor
  · by_cases h1 : fileExists (run_dir ++ "/" ++ analysisJsonName s)
    · simp [resolveAnalysisFile, specFirstExisting, h1]
    · by_cases h2 : fileExists (caseDir ++ "/" ++ analysisJsonName s)
      · simp [resolveAnalysisFile, specFirstExisting, h1, h2]
      · simp [resolveAnalysisFile, specFirstExisting, h1, h2]
  · rfl

/-- Claim C8.  Analysis of a case directory containing zero PDF documents
returns an empty result sequence, the analyze command reports failure,
and it writes no analysis output files; the analyzer also never rewrites
the cache file in that run. -/
theorem C8_empty_directory (env : AnalyzerEnv)
    (cache : List (String × DocumentAnalysis)) (run_dir s : String)
    (questions : List String) :
    (analyze_all_documents env cache [] questions).results = [] ∧
    analyze_command true env cache run_dir s [] questions = (false, []) ∧
    (analyze_all_documents env cache [] questions).effects.cacheSaves = 0 :=
  ⟨rfl, rfl, rfl⟩

/-- Claim C10.  The generate_all_materials step writes each of the three
markdown artifacts, prefixed with its level-1 heading, both to the
defense_materials subdirectory of the output directory and to a
Defense-date-model directory inside the case directory, and returns the
case-directory paths of the three artifacts. -/
theorem C10_generate_all_materials_writes_and_returns
    (output_dir case_dir model date_str defense_strategy action_items timeline : String) :
    (generate_all_materials output_dir case_dir model date_str
        defense_strategy action_items timeline).writes =
      [(output_dir ++ "/defense_materials" ++ "/" ++ "defense_strategy.md",
        "# Defense Strategy\n\n" ++ defense_strategy),
       (case_dir ++ "/Defense-" ++ date_str ++ "-" ++ model ++ "/" ++ "defense_strategy.md",
        "# Defense Strategy\n\n" ++ defense_strategy),
       (output_dir ++ "/defense_materials" ++ "/" ++ "action_items.md",
        "# Action Items\n\n" ++ action_items),
       (case_dir ++ "/Defense-" ++ date_str ++ "-" ++ model ++ "/" ++ "action_items.md",
        "# Action Items\n\n" ++ action_items),
       (output_dir ++ "/defense_materials" ++ "/" ++ "case_timeline.md",
        "# Case Timeline\n\n" ++ timeline),
       (case_dir ++ "/Defense-" ++ date_str ++ "-" ++ model ++ "/" ++ "case_timeline.md",
        "# Case Timeline\n\n" ++ timeline)] ∧
    (generate_all_materials output_dir case_dir model date_str
        defense_strategy action_items timeline).returned =
      [("defense_strategy",
        case_dir ++ "/Defense-" ++ date_str ++ "-" ++ model ++ "/defense_strategy.md"),
       ("action_items",
        case_dir ++ "/Defense-" ++ date_str ++ "-" ++ model ++ "/action_items.md"),
       ("case_timeline",
        case_dir ++ "/Defense-" ++ date_str ++ "-" ++ model ++ "/case_timeline.md")] :=
  ⟨rfl, rfl⟩

/-- Claim C2, counterexample.  For a document whose text extraction
yields the empty string, the first analysis does not store a cache entry,
so the second analysis on the unchanged document and question set misses
the cache and invokes text extraction again — contradicting the claim
that the second call always hits the cache without extraction work. -/
theorem C2_counterexample :
    findVal (analyze_document c2Env [] c2Doc c2Questions).cache
        (file_hash c2Env c2Doc c2Questions) = none ∧
    (analyze_document c2Env (analyze_document c2Env [] c2Doc c2Questions).cache
        c2Doc c2Questions).effects.extractCalls = 1 :=
  ⟨rfl, rfl⟩

/-- Claim C2, amended.  For every document whose text extraction yields
non-empty text, a second analysis on the unchanged document with the
unchanged question set returns the identical DocumentAnalysis, leaves the
cache unchanged, and performs zero extraction and zero LLM calls. -/
theorem C2_cache_idempotent_after_nonempty_extraction (env : AnalyzerEnv)
    (cache : List (String × DocumentAnalysis)) (d : PdfPath) (questions : List String)
    (hext : env.extract (pathStr d) ≠ "") :
    (analyze_document env (analyze_document env cache d questions).cache d questions).result
      = (analyze_document env cache d questions).result ∧
    (analyze_document env (analyze_document env cache d questions).cache d questions).cache
      = (analyze_document env cache d questions).cache ∧
    (analyze_document env (analyze_document env cache d questions).cache d
        questions).effects.extractCalls = 0 ∧
    (analyze_document env (analyze_document env cache d questions).cache d
        questions).effects.llmCalls = 0 := by
  cases hfind : findVal cache (file_hash env d questions) with
  | some cached =>
    rw [analyze_document_hit env cache d questions cached hfind]
    rw [analyze_document_hit env cache d questions cached hfind]
    exact ⟨rfl, rfl, rfl, rfl⟩
  | none =>
    rw [analyze_document_miss_text env cache d questions hfind hext]
    rw [analyze_document_hit env _ d questions _ (findVal_updateAssoc_self cache _ _)]
    exact ⟨rfl, rfl, rfl, rfl⟩

/-- Claim C2, witness for the amended theorem at a concrete input. -/
theorem C2_cache_idempotent_witness :
    (c3EnvOld.extract (pathStr c3Doc) ≠ "") ∧
    ((analyze_document c3EnvOld (analyze_document c3EnvOld [] c3Doc c3Questions).cache c3Doc
        c3Questions).result
      = (analyze_document c3EnvOld [] c3Doc c3Questions).result ∧
    (analyze_document c3EnvOld (analyze_document c3EnvOld [] c3Doc c3Questions).cache c3Doc
        c3Questions).cache
      = (analyze_document c3EnvOld [] c3Doc c3Questions).cache ∧
    (analyze_document c3EnvOld (analyze_document c3EnvOld [] c3Doc c3Questions).cache c3Doc
        c3Questions).effects.extractCalls = 0 ∧
    (analyze_document c3EnvOld (analyze_document c3EnvOld [] c3Doc c3Questions).cache c3Doc
        c3Questions).effects.llmCalls = 0) :=
  ⟨by decide,
   C2_cache_idempotent_after_nonempty_extraction c3EnvOld [] c3Doc c3Questions (by decide)⟩

/-- Claim C3, counterexample.  Replacing the content behind the same
document path, with the question set unchanged, does not change the
fingerprint: the second run is served the stale cached analysis and the
extractor is never invoked, so the fingerprint is not sensitive to
document content. -/
theorem C3_counterexample :
    c3EnvOld.extract (pathStr c3Doc) ≠ c3EnvNew.extract (pathStr c3Doc) ∧
    file_hash c3EnvNew c3Doc c3Questions = file_hash c3EnvOld c3Doc c3Questions ∧
    (analyze_document c3EnvNew (analyze_document c3EnvOld [] c3Doc c3Questions).cache
        c3Doc c3Questions).result
      = (analyze_document c3EnvOld [] c3Doc c3Questions).result ∧
    (analyze_document c3EnvNew (analyze_document c3EnvOld [] c3Doc c3Questions).cache
        c3Doc c3Questions).effects.extractCalls = 0 :=
  ⟨by decide, rfl, rfl, rfl⟩

/-- Claim C3, amended.  The fingerprint depends only on the document path
and the rendered hash of the serialized question list: two question sets
produce different fingerprints for a document exactly when their rendered
hashes differ, and changing the extraction or LLM behaviour of the
environment while keeping the hash function never changes the
fingerprint. -/
theorem C3_fingerprint_depends_only_on_path_and_questions
    (env env2 : AnalyzerEnv) (d : PdfPath) (qs qs2 : List String)
    (hh : env2.pyHash = env.pyHash) :
    (file_hash env d qs = file_hash env d qs2 ↔
      toString (env.pyHash (pyStrOfList qs)) = toString (env.pyHash (pyStrOfList qs2))) ∧
    file_hash env2 d qs = file_hash env d qs := by
  refine ⟨⟨?_, ?_⟩, ?_⟩
  · intro h
    unfold file_hash at h
    exact string_append_left_cancel h
  · intro h
    unfold file_hash
    rw [h]
  · unfold file_hash
    rw [hh]

/-- Claim C3, witness for the amended theorem at a concrete input. -/
theorem C3_fingerprint_witness :
    (c3EnvNew.pyHash = c3EnvOld.pyHash) ∧
    ((file_hash c3EnvOld c3Doc c3Questions = file_hash c3EnvOld c3Doc wQuestions ↔
      toString (c3EnvOld.pyHash (pyStrOfList c3Questions))
        = toString (c3EnvOld.pyHash (pyStrOfList wQuestions))) ∧
    file_hash c3EnvNew c3Doc c3Questions = file_hash c3EnvOld c3Doc c3Questions) :=
  ⟨rfl,
   C3_fingerprint_depends_only_on_path_and_questions c3EnvOld c3EnvNew c3Doc
     c3Questions wQuestions rfl⟩

/-- Claim C5.  For a document whose extraction yields no text, on a cache
miss the analysis is the blank DocumentAnalysis carrying the filename
with every answer empty, and the phase-1 result sequence still has one
entry per document, so the document is not dropped. -/
theorem C5_empty_extraction_blank_analysis (env : AnalyzerEnv)
    (cache cache2 : List (String × DocumentAnalysis)) (d : PdfPath)
    (questions : List String) (q : String) (docs : List PdfPath)
    (hmiss : findVal cache (file_hash env d questions) = none)
    (hext : env.extract (pathStr d) = "")
    (hq : q ∈ questions) :
    (analyze_document env cache d questions).result
      = ⟨d.name, buildAnalysis (fun _ => "") questions⟩ ∧
    findVal (analyze_document env cache d questions).result.analysis q = some "" ∧
    (analyze_all_documents env cache2 docs questions).results.length = docs.length := by
  rw [analyze_document_miss_empty env cache d questions hmiss hext]
  exact ⟨rfl, findVal_buildAnalysis hq, analyze_all_results_length env cache2 docs questions⟩

/-- Claim C5, witness at a concrete input. -/
theorem C5_empty_extraction_witness :
    (findVal ([] : List (String × DocumentAnalysis)) (file_hash c2Env c2Doc c2Questions)
      = none) ∧
    (c2Env.extract (pathStr c2Doc) = "") ∧
    ("What are the charges" ∈ c2Questions) ∧
    ((analyze_document c2Env [] c2Doc c2Questions).result
      = ⟨c2Doc.name, buildAnalysis (fun _ => "") c2Questions⟩ ∧
    findVal (analyze_document c2Env [] c2Doc c2Questions).result.analysis
        "What are the charges" = some "" ∧
    (analyze_all_documents c2Env [] [c2Doc] c2Questions).results.length = [c2Doc].length) :=
  ⟨by decide, by decide, by decide,
   C5_empty_extraction_blank_analysis c2Env [] [] c2Doc c2Questions
     "What are the charges" [c2Doc] (by decide) (by decide) (by decide)⟩

/-- Claim C9.  For a document whose extraction yields no text, the blank
analysis is returned without inserting a cache entry and without
rewriting the cache file, so a subsequent invocation extracts the
document again. -/
theorem C9_empty_extraction_not_cached (env : AnalyzerEnv)
    (cache : List (String × DocumentAnalysis)) (d : PdfPath) (questions : List String)
    (hmiss : findVal cache (file_hash env d questions) = none)
    (hext : env.extract (pathStr d) = "") :
    (analyze_document env cache d questions).cache = cache ∧
    (analyze_document env cache d questions).effects.cacheSaves = 0 ∧
    (analyze_document env (analyze_document env cache d questions).cache d
        questions).effects.extractCalls = 1 := by
  rw [analyze_document_miss_empty env cache d questions hmiss hext]
  refine ⟨rfl, rfl, ?_⟩
  rw [analyze_document_miss_empty env cache d questions hmiss hext]

/-- Claim C9, witness at a concrete input. -/
theorem C9_empty_extraction_not_cached_witness :
    (findVal ([] : List (String × DocumentAnalysis)) (file_hash c2Env c2Doc c2Questions)
      = none) ∧
    (c2Env.extract (pathStr c2Doc) = "") ∧
    ((analyze_document c2Env [] c2Doc c2Questions).cache = [] ∧
    (analyze_document c2Env [] c2Doc c2Questions).effects.cacheSaves = 0 ∧
    (analyze_document c2Env (analyze_document c2Env [] c2Doc c2Questions).cache c2Doc
        c2Questions).effects.extractCalls = 1) :=
  ⟨by decide, by decide,
   C9_empty_extraction_not_cached c2Env [] c2Doc c2Questions (by decide) (by decide)⟩

/-- Claim C4.  On a cache miss with non-empty extracted text, if the LLM
client fails on exactly one question, that question is recorded with the
empty string, every question the client answered is recorded with the
returned string, all questions are still asked, and the run proceeds to
every remaining document (one result per document). -/
theorem C4_partial_failure_isolation (env : AnalyzerEnv)
    (cache cache2 : List (String × DocumentAnalysis)) (d : PdfPath)
    (questions : List String) (qbad qgood r : String) (docs : List PdfPath)
    (hmiss : findVal cache (file_hash env d questions) = none)
    (hext : env.extract (pathStr d) ≠ "")
    (hbad : qbad ∈ questions)
    (hfail : env.llm (mkPrompt qbad (env.extract (pathStr d))) = none)
    (hgood : qgood ∈ questions)
    (hr : env.llm (mkPrompt qgood (env.extract (pathStr d))) = some r) :
    findVal (analyze_document env cache d questions).result.analysis qbad = some "" ∧
    findVal (analyze_document env cache d questions).result.analysis qgood = some r ∧
    (analyze_document env cache d questions).effects.llmCalls = questions.length ∧
    (analyze_all_documents env cache2 docs questions).results.length = docs.length := by
  rw [analyze_document_miss_text env cache d questions hmiss hext]
  refine ⟨?_, ?_, rfl, analyze_all_results_length env cache2 docs questions⟩
  · show findVal (buildAnalysis
        (fun q => query_ollama env (mkPrompt q (env.extract (pathStr d)))) questions) qbad
      = some ""
    rw [findVal_buildAnalysis hbad]
    simp [query_ollama, hfail]
  · show findVal (buildAnalysis
        (fun q => query_ollama env (mkPrompt q (env.extract (pathStr d)))) questions) qgood
      = some r
    rw [findVal_buildAnalysis hgood]
    simp [query_ollama, hr]

/-- Claim C4, witness at a concrete input: three questions, the LLM
failing on the second one only. -/
theorem C4_partial_failure_isolation_witness :
    (findVal ([] : List (String × DocumentAnalysis)) (file_hash wEnv wDoc wQuestions)
      = none) ∧
    (wEnv.extract (pathStr wDoc) ≠ "") ∧
    ("Q2" ∈ wQuestions) ∧
    (wEnv.llm (mkPrompt "Q2" (wEnv.extract (pathStr wDoc))) = none) ∧
    ("Q1" ∈ wQuestions) ∧
    (wEnv.llm (mkPrompt "Q1" (wEnv.extract (pathStr wDoc))) = some "ANSWER") ∧
    (findVal (analyze_document wEnv [] wDoc wQuestions).result.analysis "Q2" = some "" ∧
     findVal (analyze_document wEnv [] wDoc wQuestions).result.analysis "Q1"
       = some "ANSWER" ∧
     (analyze_document wEnv [] wDoc wQuestions).effects.llmCalls = wQuestions.length ∧
     (analyze_all_documents wEnv [] [wDoc] wQuestions).results.length = [wDoc].length) :=
  ⟨by decide, by decide, by decide, by decide, by decide, by decide,
   C4_partial_failure_isolation wEnv [] [] wDoc wQuestions "Q2" "Q1" "ANSWER" [wDoc]
     (by decide) (by decide) (by decide) (by decide) (by decide) (by decide)⟩

/-- Claim C7.  Loading the phase-1 analysis distinguishes two error
kinds: an absent file yields a fileNotFound error, which the command
boundary turns into a remediation message telling the user to run the
analysis first, while a present but unparseable file yields a distinct
jsonDecodeError, which receives a different message; a malformed file is
therefore never treated as missing or as successfully loaded. -/
theorem C7_load_analysis_distinct_errors (readFile : String → Option String)
    (parseJson : String → Option (List DocumentAnalysis))
    (f1 f2 c model msg msg2 : String)
    (h1 : readFile f1 = none)
    (h2 : readFile f2 = some c)
    (h3 : parseJson c = none) :
    load_analysis readFile parseJson f1
      = Except.error (LoadError.fileNotFound ("Analysis file not found: " ++ f1)) ∧
    load_analysis readFile parseJson f2
      = Except.error (LoadError.jsonDecodeError ("Invalid JSON in analysis file: " ++ f2)) ∧
    LoadError.fileNotFound msg ≠ LoadError.jsonDecodeError msg2 ∧
    defendErrorMessage model (LoadError.fileNotFound msg)
      = (false, "Error: " ++ msg ++ "\nPlease run themis analyze with model " ++ model
          ++ " first to generate the analysis file.") ∧
    defendErrorMessage model (LoadError.jsonDecodeError msg2)
      = (false, "Error during defense generation: " ++ msg2) := by
  refine ⟨?_, ?_, ?_, rfl, rfl⟩
  · simp [load_analysis, h1]
  · simp [load_analysis, h2, h3]
  · intro h
    exact LoadError.noConfusion h

/-- Claim C7, witness at a concrete input: one absent file and one
present but malformed file. -/
theorem C7_load_analysis_witness :
    (c7ReadFile "missing.json" = none) ∧
    (c7ReadFile "case/document_analysis_mistral.json" = some "NOT JSON") ∧
    (c7ParseJson "NOT JSON" = none) ∧
    (load_analysis c7ReadFile c7ParseJson "missing.json"
      = Except.error (LoadError.fileNotFound
          ("Analysis file not found: " ++ "missing.json")) ∧
     load_analysis c7ReadFile c7ParseJson "case/document_analysis_mistral.json"
      = Except.error (LoadError.jsonDecodeError
          ("Invalid JSON in analysis file: " ++ "case/document_analysis_mistral.json")) ∧
     LoadError.fileNotFound "m1" ≠ LoadError.jsonDecodeError "m2" ∧
     defendErrorMessage "mistral" (LoadError.fileNotFound "m1")
      = (false, "Error: " ++ "m1" ++ "\nPlease run themis analyze with model " ++ "mistral"
          ++ " first to generate the analysis file.") ∧
     defendErrorMessage "mistral" (LoadError.jsonDecodeError "m2")
      = (false, "Error during defense generation: " ++ "m2")) :=
  ⟨by decide, by decide, rfl,
   C7_load_analysis_distinct_errors c7ReadFile c7ParseJson "missing.json"
     "case/document_analysis_mistral.json" "NOT JSON" "mistral" "m1" "m2"
     (by decide) (by decide) rfl⟩

end Themis
